import Mathlib

/-!
Verification of `discatpy/client.py` against its specification.

The embedding translates the module's functions (`_fetch_function_from_type`,
`Client.grab`, `Client.login`, `Client._end_run`, `Client.gateway_run`,
`Client.run`) into pure Lean functions.  External collaborators (the HTTP
client, the cache store, the gateway connection) are modelled as oracle
inputs: the cache is a lookup function, `http.login` is its result, and
each completion of `gateway.loop()` is an element of an outcome trace.
Python exception flow is modelled with `Except` / `Option` error values,
and Python positional-call arity checking is made explicit, because the
code under verification calls a two-parameter function with one argument.
-/

set_option autoImplicit false

namespace Discatpy

/-- Python `Exception` subclasses that appear in the embedded code.
`KeyboardInterrupt` is a `BaseException`, not an `Exception`, so it is
modelled separately (`RunError.keyboardInterrupt`): `except Exception`
does not catch it. -/
inductive PyExc where
  | typeError (msg : String)
  | attributeError (msg : String)
  | authenticationError
  | exception (msg : String)
deriving DecidableEq, Repr

/-- Whether the list `needle` occurs as a prefix of `hay` (Python-style,
an empty needle always matches). -/
def listStartsWith {α : Type} [DecidableEq α] : List α → List α → Bool
  | [], _ => true
  | _ :: _, [] => false
  | a :: as, b :: bs => if a = b then listStartsWith as bs else false

/-- Whether the list `needle` occurs contiguously inside `hay`
(the semantics of Python's `needle in hay` on strings, on `List Char`). -/
def listContainsSub {α : Type} [DecidableEq α] (needle : List α) : List α → Bool
  | [] => listStartsWith needle []
  | a :: rest => listStartsWith needle (a :: rest) || listContainsSub needle rest

/-- Python's substring test `needle in hay`. -/
def strContainsSub (hay needle : String) : Bool :=
  listContainsSub needle.data hay.data

/-- Python's `str.lower()`, mapped over the characters (the type names
and tags that reach it are ASCII identifiers). -/
def pyLower (s : String) : String :=
  ⟨s.data.map Char.toLower⟩

/-- The second argument of `_fetch_function_from_type`: either a Python
class (carrying its `__name__`) or a plain string
(`t: Union[type, str]`, client.py line 48). -/
inductive TypeArg where
  | pyType (name : String)
  | str (s : String)
deriving DecidableEq, Repr

/-- The bound HTTP methods `_fetch_function_from_type` can return
(client.py lines 52, 54, 56); which method is selected depends only on
the type argument, never on the HTTP client's state. -/
inductive FetchFunc where
  | get_channel
  | get_guild
  | get_user
deriving DecidableEq, Repr

/-- The body of `_fetch_function_from_type` (client.py lines 48-58):
lower-case the type's `__name__` (or the string itself), return
`http.get_channel` when `"channel"` occurs in the name, `http.get_guild`
for `"guild"`, `http.get_user` for `"user"`, and otherwise raise
`TypeError("invalid type passed in")`. -/
def fetch_function_from_type (t : TypeArg) : Except PyExc FetchFunc :=
  let t_name : String :=
    match t with
    | .pyType n => pyLower n
    | .str s => pyLower s
  if strContainsSub t_name "channel" then .ok .get_channel
  else if t_name = "guild" then .ok .get_guild
  else if t_name = "user" then .ok .get_user
  else .error (.typeError "invalid type passed in")

/-- Python positional-call semantics: a function declared with `required`
positional parameters, called with `supplied` positional arguments,
raises `TypeError` before its body runs unless the counts match. -/
def callRequiring {α : Type} (required supplied : Nat) (body : Except PyExc α) :
    Except PyExc α :=
  if supplied = required then body
  else .error (.typeError "missing required positional argument")

/-- Discord snowflake identifiers. -/
abbrev Snowflake := Nat

/-- Result of `Client.grab` together with the observable side effects of
the call: how many network fetches were performed and how many entries
were inserted into the cache. -/
structure GrabResult (α : Type) where
  result : Except PyExc α
  fetchCalls : Nat
  cachePuts : Nat
deriving Repr

/-- `Client.grab` (client.py lines 228-246).  The cache collaborator is
the oracle `cache` (its `get_type` lookup).  On a hit the cached object
is returned unchanged.  On a miss the code executes
`fetch_func = _fetch_function_from_type(_type)`: one positional argument
supplied to a function whose signature (line 48) has the two required
parameters `(http, t)`, so the call raises `TypeError` before the
mapping body runs.  Were that call to succeed, the next line
`asyncio.get_event_loop().run_in_executor(fetch_func(id))` would itself
raise `TypeError` (`run_in_executor` requires `(executor, func, *args)`);
evaluating `fetch_func(id)` only builds a coroutine without running it,
so no network request is sent either way.  No path of `grab` writes to
the cache. -/
def grab {α : Type} (cache : Snowflake → TypeArg → Option α)
    (id : Snowflake) (t : TypeArg) : GrabResult α :=
  match cache id t with
  | some obj => ⟨.ok obj, 0, 0⟩
  | none =>
    match callRequiring 2 1 (fetch_function_from_type t) with
    | .error e => ⟨.error e, 0, 0⟩
    | .ok _fetch_func =>
      ⟨.error (.typeError "missing required positional argument"), 0, 0⟩

/-- An argument passed to `Dispatcher.dispatch` after the event name. -/
inductive DispatchArg where
  | str (s : String)
  | exc (e : PyExc)
deriving DecidableEq, Repr

/-- One call to `Dispatcher.dispatch`: the event name and the positional
arguments that follow it. -/
structure DispatchCall where
  event : String
  args : List DispatchArg
deriving DecidableEq, Repr

/-- What one completion of the `try` body in `Client.gateway_run`'s
`while` loop (client.py lines 191-203) looks like from the controller:
`gateway.loop()` returned with the `_gateway_reconnect` event set,
returned with it clear, or an `Exception` was raised while driving the
connection. -/
inductive LoopOutcome where
  | reconnectRequested
  | endedNormally
  | raised (e : PyExc)
deriving DecidableEq, Repr

/-- The observable state of `Client.gateway_run`: the `running` flag, the
`_gateway_reconnect` event, the URLs passed to `http.ws_connect` (one
entry per websocket connection opened), and the dispatch calls made. -/
structure GatewayRunState where
  running : Bool
  reconnectFlagSet : Bool
  wsConnectUrls : List String
  dispatched : List DispatchCall
deriving DecidableEq, Repr

/-- One iteration of the `while self.running` loop in
`Client.gateway_run` (client.py lines 191-203): on a normal completion
with `_gateway_reconnect` set, clear the event and open a new websocket
to the same `gateway_url`; on a normal completion with it clear, set
`running` to `False`; on an `Exception`, dispatch
`"on_error"` with the exception as the only argument and fall through to
the next iteration. -/
def gatewayStep (url : String) (s : GatewayRunState) : LoopOutcome → GatewayRunState
  | .reconnectRequested =>
    { s with reconnectFlagSet := false, wsConnectUrls := s.wsConnectUrls ++ [url] }
  | .endedNormally => { s with running := false }
  | .raised e =>
    { s with dispatched := s.dispatched ++ [⟨"on_error", [.exc e]⟩] }

/-- The `while self.running` loop, driven by a trace of loop outcomes;
iterations stop as soon as `running` is `False`. -/
def gatewayRunLoop (url : String) : GatewayRunState → List LoopOutcome → GatewayRunState
  | s, [] => s
  | s, o :: rest =>
    if s.running then gatewayRunLoop url (gatewayStep url s o) rest else s

/-- `Client.gateway_run` (client.py lines 180-203): resolve the gateway
URL via `http.get_gateway_bot`, open the first websocket connection,
construct the `GatewayClient`, set `running` to `True`, then run the
loop. -/
def gateway_run (url : String) (trace : List LoopOutcome) : GatewayRunState :=
  gatewayRunLoop url ⟨true, false, [url], []⟩ trace

/-- The raw user payload returned by `http.login` (an opaque dict). -/
abbrev UserData := String

/-- The controller state of `Client` that `login`, `gateway_run` and
`_end_run` touch: `me`, the users inserted into the cache, how many times
`http.login` was called, the `gateway` attribute (still `None` until
`gateway_run` constructs the `GatewayClient`, client.py line 100 and
188), whether `gateway.close(reconnect=False)` ran, whether `http.close`
ran, and how many times `_end_run` was invoked. -/
structure ClientState where
  me : Option UserData := none
  cacheUsers : List UserData := []
  httpLoginCalls : Nat := 0
  gateway : Option GatewayRunState := none
  gatewayClosedNoReconnect : Bool := false
  httpClosed : Bool := false
  endRunCalls : Nat := 0
deriving DecidableEq, Repr

/-- `Client.login` (client.py lines 161-174): await `http.login(token)`
— modelled by its result `r`, one call per invocation — and on success
set `self.me` from the payload and add it to the cache via
`cache.add_user`; on failure the exception propagates and nothing else
runs. -/
def login (st : ClientState) (r : Except PyExc UserData) :
    ClientState × Option PyExc :=
  let st1 := { st with httpLoginCalls := st.httpLoginCalls + 1 }
  match r with
  | .error e => (st1, some e)
  | .ok u => ({ st1 with me := some u, cacheUsers := st1.cacheUsers ++ [u] }, none)

/-- The local coroutine `wrapped` inside `Client.run` (client.py lines
215-217): `await self.login(token)` then `await self.gateway_run()`; an
exception from `login` propagates and `gateway_run` is never entered. -/
def wrapped (st : ClientState) (r : Except PyExc UserData) (url : String)
    (trace : List LoopOutcome) : ClientState × Option PyExc :=
  let p := login st r
  match p.2 with
  | some e => (p.1, some e)
  | none => ({ p.1 with gateway := some (gateway_run url trace) }, none)

/-- `Client._end_run` (client.py lines 176-178): `await
self.gateway.close(reconnect=False)` then `await self.http.close()`.
When `self.gateway` is still `None`, the attribute access
`self.gateway.close` raises `AttributeError` and `http.close` is never
reached. -/
def end_run (st : ClientState) : ClientState × Option PyExc :=
  match st.gateway with
  | none =>
    ({ st with endRunCalls := st.endRunCalls + 1 },
      some (.attributeError "NoneType object has no attribute close"))
  | some _ =>
    ({ st with endRunCalls := st.endRunCalls + 1,
               gatewayClosedNoReconnect := true, httpClosed := true }, none)

/-- What can escape `asyncio.run(wrapped())` in `Client.run`: an
`Exception` from the coroutine, or the `KeyboardInterrupt`
`BaseException` delivered on operator interrupt. -/
inductive RunError where
  | exc (e : PyExc)
  | keyboardInterrupt
deriving DecidableEq, Repr

/-- When, if at all, a `KeyboardInterrupt` hits `asyncio.run(wrapped())`:
never; before `gateway_run` assigns `self.gateway` (during `login` or
gateway setup); or after the gateway exists, with the loop outcomes
processed so far. -/
inductive RunInterrupt where
  | noInterrupt
  | duringLogin
  | duringGateway (processed : List LoopOutcome)
deriving DecidableEq, Repr

/-- `Client.run` (client.py lines 205-224):
`try: asyncio.run(wrapped())` / `except KeyboardInterrupt: pass` /
`finally: asyncio.run(self._end_run())`.  Only `KeyboardInterrupt` is
caught by the `except`; the `finally` always runs `_end_run` exactly
once, and an exception raised inside the `finally` replaces whatever
exception was in flight (Python's try/finally semantics). -/
def run (st : ClientState) (r : Except PyExc UserData) (url : String)
    (trace : List LoopOutcome) (intr : RunInterrupt) :
    ClientState × Option RunError :=
  let body : ClientState × Option RunError :=
    match intr with
    | .duringLogin => (st, some .keyboardInterrupt)
    | .duringGateway processed =>
      let p := login st r
      match p.2 with
      | some e => (p.1, some (.exc e))
      | none =>
        ({ p.1 with gateway := some (gateway_run url processed) },
          some .keyboardInterrupt)
    | .noInterrupt =>
      let w := wrapped st r url trace
      (w.1, w.2.map RunError.exc)
  let caught : Option RunError :=
    match body.2 with
    | some .keyboardInterrupt => none
    | e => e
  let fin := end_run body.1
  (fin.1,
    match fin.2 with
    | some e => some (.exc e)
    | none => caught)

end Discatpy

namespace Discatpy

/-- C8: when `(typeTag, identifier)` is present in the cache, `grab`
returns the cached entity immediately, performs no network fetch, and
inserts nothing into the cache (read-through on hit). -/
theorem grab_cache_hit {α : Type} (cache : Snowflake → TypeArg → Option α)
    (id : Snowflake) (t : TypeArg) (obj : α) (h : cache id t = some obj) :
    grab cache id t = ⟨.ok obj, 0, 0⟩ := by
  unfold grab
  rw [h]

/-- Witness for `grab_cache_hit` at a concrete cache, identifier and tag. -/
theorem grab_cache_hit_witness :
    grab (fun _ _ => some 42) 5 (TypeArg.str "guild") = ⟨.ok 42, 0, 0⟩ :=
  grab_cache_hit (fun _ _ => some 42) 5 (TypeArg.str "guild") 42 rfl

/-- C9: on every cache miss, `grab` raises `TypeError` regardless of the
type tag — `_fetch_function_from_type`, declared with the two required
parameters `(http, t)`, is invoked with only the type argument — and no
network fetch is performed on the miss path. -/
theorem grab_miss_raises_type_error {α : Type}
    (cache : Snowflake → TypeArg → Option α) (id : Snowflake) (t : TypeArg)
    (h : cache id t = none) :
    (grab cache id t).result =
        .error (.typeError "missing required positional argument") ∧
      (grab cache id t).fetchCalls = 0 := by
  unfold grab
  rw [h]
  exact ⟨rfl, rfl⟩

/-- Witness for `grab_miss_raises_type_error` on an empty cache. -/
theorem grab_miss_raises_type_error_witness :
    (grab (fun _ _ => (none : Option Nat)) 9 (TypeArg.pyType "Guild")).result =
        .error (.typeError "missing required positional argument") ∧
      (grab (fun _ _ => (none : Option Nat)) 9 (TypeArg.pyType "Guild")).fetchCalls = 0 :=
  grab_miss_raises_type_error (fun _ _ => (none : Option Nat)) 9
    (TypeArg.pyType "Guild") rfl

/-- C1 evaluated at its failing input: resolving `(guild, 123)` against an
empty cache does not fetch, construct, or cache anything — the call
raises `TypeError` (arity) before the fetch, and no path of `grab`
inserts into the cache. -/
theorem grab_guild_miss_never_caches :
    grab (fun _ _ => (none : Option Nat)) 123 (TypeArg.str "guild") =
      ⟨.error (.typeError "missing required positional argument"), 0, 0⟩ := by
  rfl

/-- C2 evaluated against the code: the mapping body of
`_fetch_function_from_type` does implement the closed tag→operation map
(channel-family, guild, user, otherwise `TypeError("invalid type passed
in")`), but on an actual cache miss `grab` supplies one argument to the
two-parameter function, so even the recognised tag `"user"` fails with
the arity `TypeError` and no fetch operation is ever selected. -/
theorem fetch_mapping_matches_but_call_site_fails :
    fetch_function_from_type (TypeArg.pyType "RawChannel") = .ok .get_channel ∧
    fetch_function_from_type (TypeArg.str "guild") = .ok .get_guild ∧
    fetch_function_from_type (TypeArg.str "user") = .ok .get_user ∧
    fetch_function_from_type (TypeArg.str "message") =
        .error (.typeError "invalid type passed in") ∧
    (grab (fun _ _ => (none : Option Nat)) 7 (TypeArg.str "user")).result =
        .error (.typeError "missing required positional argument") ∧
    (grab (fun _ _ => (none : Option Nat)) 7 (TypeArg.str "user")).fetchCalls = 0 := by
  exact ⟨rfl, rfl, rfl, rfl, rfl, rfl⟩

/-- C3 counterexample: an exception caught in the run loop is dispatched
under `"on_error"` with a single argument — the exception itself — not
with the two arguments `(originatingEventName, exception)` the claim
requires. -/
theorem on_error_dispatched_with_one_argument :
    (gateway_run "wss://gateway" [.raised (.exception "boom")]).dispatched =
        [⟨"on_error", [.exc (.exception "boom")]⟩] ∧
      ¬ ([DispatchArg.exc (.exception "boom")].length = 2) := by
  exact ⟨rfl, by decide⟩

/-- C3 amended: every exception caught in the run loop is dispatched
under `"on_error"` with the exception as the only argument (no
originating event name is passed), and nothing else about the loop state
changes. -/
theorem gatewayStep_raised_dispatches_exception_only
    (url : String) (s : GatewayRunState) (e : PyExc) :
    gatewayStep url s (.raised e) =
      { s with dispatched := s.dispatched ++ [⟨"on_error", [.exc e]⟩] } :=
  rfl

/-- C4: after each completion of `gateway.loop()` the controller checks
the reconnect flag — if set it clears the flag and opens a new websocket
connection to the same gateway URL and loops (running is preserved), if
clear it sets `running` to `False` — and for a connection requesting
reconnect on its first three completions and ending normally on the
fourth, exactly four connections are opened (all to the same URL) and
the loop ends with `running = False`. -/
theorem gateway_reconnect_protocol :
    (∀ (url : String) (s : GatewayRunState),
        gatewayStep url s .reconnectRequested =
          { s with reconnectFlagSet := false,
                   wsConnectUrls := s.wsConnectUrls ++ [url] }) ∧
    (∀ (url : String) (s : GatewayRunState),
        gatewayStep url s .endedNormally = { s with running := false }) ∧
    (gateway_run "wss://gateway"
        [.reconnectRequested, .reconnectRequested, .reconnectRequested,
          .endedNormally]).wsConnectUrls =
      ["wss://gateway", "wss://gateway", "wss://gateway", "wss://gateway"] ∧
    (gateway_run "wss://gateway"
        [.reconnectRequested, .reconnectRequested, .reconnectRequested,
          .endedNormally]).running = false := by
  exact ⟨fun _ _ => rfl, fun _ _ => rfl, rfl, rfl⟩

/-- C5: an exception raised while driving the connection is caught in the
loop (running unchanged, no new connection opened) and dispatched as an
error event, and `run` invoked with a successful login and no
interruption returns without propagating any exception, whatever the
loop trace contains. -/
theorem loop_exception_caught_not_propagated :
    (∀ (url : String) (s : GatewayRunState) (e : PyExc),
        (gatewayStep url s (.raised e)).running = s.running ∧
        (gatewayStep url s (.raised e)).wsConnectUrls = s.wsConnectUrls ∧
        (gatewayStep url s (.raised e)).dispatched =
          s.dispatched ++ [⟨"on_error", [.exc e]⟩]) ∧
    (∀ (st : ClientState) (u : UserData) (url : String)
        (trace : List LoopOutcome),
        (run st (.ok u) url trace .noInterrupt).2 = none) := by
  exact ⟨fun _ _ _ => ⟨rfl, rfl, rfl⟩, fun _ _ _ _ => rfl⟩

/-- C6: `login` calls `http.login` exactly once per invocation; on
success it records the payload as `me` and adds it to the cache; on
failure the exception propagates to the caller with `me`, the cache and
the `gateway` attribute unchanged, and inside `wrapped` a failing login
means `gateway_run` is never entered. -/
theorem login_calls_once_and_propagates :
    (∀ (st : ClientState) (u : UserData),
        login st (.ok u) =
          ({ st with me := some u, cacheUsers := st.cacheUsers ++ [u],
                     httpLoginCalls := st.httpLoginCalls + 1 }, none)) ∧
    (∀ (st : ClientState) (e : PyExc),
        login st (.error e) =
          ({ st with httpLoginCalls := st.httpLoginCalls + 1 }, some e)) ∧
    (∀ (st : ClientState) (e : PyExc) (url : String)
        (trace : List LoopOutcome),
        wrapped st (.error e) url trace =
          ({ st with httpLoginCalls := st.httpLoginCalls + 1 }, some e)) := by
  exact ⟨fun _ _ => rfl, fun _ _ => rfl, fun _ _ _ _ => rfl⟩

/-- C7 counterexample: on the exit path where login fails (and on an
interruption before the gateway exists), the cleanup is invoked but does
not execute its two steps — `http.close` is never reached, and the
caller sees the `AttributeError` from the cleanup itself — refuting that
the shutdown cleanup (close connection, release HTTP resources) executes
on every exit path. -/
theorem run_cleanup_skips_http_close :
    (run {} (.error .authenticationError) "wss://gateway" []
        .noInterrupt).1.httpClosed = false ∧
    (run {} (.error .authenticationError) "wss://gateway" []
        .noInterrupt).1.endRunCalls = 1 ∧
    (run {} (.error .authenticationError) "wss://gateway" [] .noInterrupt).2 =
      some (.exc (.attributeError "NoneType object has no attribute close")) ∧
    (run {} (.ok "me") "wss://gateway" [] .duringLogin).1.httpClosed = false := by
  exact ⟨rfl, rfl, rfl, rfl⟩

/-- C7 amended: `run` executes login then the run loop, suppresses
`KeyboardInterrupt`, and invokes the `_end_run` cleanup exactly once on
every exit path; whenever the run loop was entered — login succeeded and
any interruption arrived only after the gateway was created, i.e. on
every interrupt mode except one that precedes gateway creation — the
cleanup completes both steps (connection closed without reconnect, HTTP
resources released) and `run` returns no error; but on exit paths where
the gateway was never created the cleanup itself fails before releasing
the HTTP resources. -/
theorem run_cleanup_invoked_once (st : ClientState)
    (r : Except PyExc UserData) (url : String) (trace : List LoopOutcome)
    (intr : RunInterrupt) :
    (run st r url trace intr).1.endRunCalls = st.endRunCalls + 1 ∧
    (run st r url trace intr).2 ≠ some RunError.keyboardInterrupt ∧
    (∀ u : UserData, r = .ok u → intr ≠ .duringLogin →
      (run st r url trace intr).1.gatewayClosedNoReconnect = true ∧
      (run st r url trace intr).1.httpClosed = true ∧
      (run st r url trace intr).2 = none) := by
  cases intr <;> cases r <;>
    cases h : st.gateway <;>
      simp [run, wrapped, login, end_run, h]

/-- Witness for `run_cleanup_invoked_once`, at a successful login with no
interruption, and at a successful login interrupted after the gateway
was created (one reconnect already processed). -/
theorem run_cleanup_invoked_once_witness :
    ((run {} (.ok "me") "wss://gateway" [] .noInterrupt).1.endRunCalls =
        ({} : ClientState).endRunCalls + 1 ∧
      (run {} (.ok "me") "wss://gateway" [] .noInterrupt).1.httpClosed = true ∧
      (run {} (.ok "me") "wss://gateway" [] .noInterrupt).2 = none) ∧
    ((run {} (.ok "me") "wss://gateway" []
          (.duringGateway [.reconnectRequested])).1.gatewayClosedNoReconnect =
        true ∧
      (run {} (.ok "me") "wss://gateway" []
          (.duringGateway [.reconnectRequested])).1.httpClosed = true ∧
      (run {} (.ok "me") "wss://gateway" []
          (.duringGateway [.reconnectRequested])).2 = none) := by
  have h1 := run_cleanup_invoked_once {} (.ok "me") "wss://gateway" []
    .noInterrupt
  have h2 := run_cleanup_invoked_once {} (.ok "me") "wss://gateway" []
    (.duringGateway [.reconnectRequested])
  exact ⟨⟨h1.1, (h1.2.2 "me" rfl (by simp)).2.1, (h1.2.2 "me" rfl (by simp)).2.2⟩,
    h2.2.2 "me" rfl (by simp)⟩

/-- C10: when the run loop was never entered (`self.gateway` is still
`None`, e.g. after a failed login), the `finally` cleanup of `run`
raises `AttributeError` on `self.gateway.close` before reaching
`http.close`, so the HTTP resources are left open. -/
theorem login_failure_leaves_http_open (st : ClientState) (e : PyExc)
    (url : String) (trace : List LoopOutcome)
    (hgw : st.gateway = none) (hopen : st.httpClosed = false) :
    (run st (.error e) url trace .noInterrupt).2 =
        some (.exc (.attributeError "NoneType object has no attribute close")) ∧
      (run st (.error e) url trace .noInterrupt).1.httpClosed = false ∧
      (run st (.error e) url trace .noInterrupt).1.endRunCalls =
        st.endRunCalls + 1 := by
  simp [run, wrapped, login, end_run, hgw, hopen]

/-- Witness for `login_failure_leaves_http_open` on a freshly constructed
client whose login fails. -/
theorem login_failure_leaves_http_open_witness :
    (run {} (.error PyExc.authenticationError) "wss://gw" [] .noInterrupt).2 =
        some (.exc (.attributeError "NoneType object has no attribute close")) ∧
      (run {} (.error PyExc.authenticationError) "wss://gw" []
          .noInterrupt).1.httpClosed = false ∧
      (run {} (.error PyExc.authenticationError) "wss://gw" []
          .noInterrupt).1.endRunCalls = ({} : ClientState).endRunCalls + 1 :=
  login_failure_leaves_http_open {} PyExc.authenticationError "wss://gw" []
    rfl rfl

end Discatpy
